import Mathlib

/-!
# DelegInsumos — verification of the storage / delivery / alert core

Shallow embedding of the DelegInsumos inventory application
(`src/database/connection.py`, `src/database/migrations.py`,
`src/database/operations.py`, `src/services/micro_entregas.py`,
`src/services/micro_alertas.py`, `src/services/micro_insumos.py`,
`src/services/micro_empleados.py`, `src/exceptions/custom_exceptions.py`).

The SQLite database is modelled as a pure `DBState` record; every statement
that the Python code issues against it becomes a pure function on `DBState`.
A transaction (`DatabaseConnection.get_cursor(transaction=True)`) is one
atomic state transition: commit keeps the body's final state, rollback
restores the initial state.  Timestamps (`CURRENT_TIMESTAMP`) are modelled
as a `Nat` parameter `now` threaded in by the caller.
-/

/-- The exception taxonomy of `src/exceptions/custom_exceptions.py`,
restricted to the classes the storage / delivery core can raise.
`insufficientStock`, `duplicateRecord` and `recordNotFound` are subclasses
of `BusinessLogicException` in the source; `dbIntegrity`
(`DatabaseIntegrityException`), `dbConnection`
(`DatabaseConnectionException`) and the generic `dbError`
(`DatabaseException`) are the database branch. -/
inductive PyError where
  | validation (field msg : String)
  | recordNotFound (entity ident : String)
  | businessLogic (msg : String)
  | insufficientStock (insumoNombre : String) (stockActual cantidadSolicitada : Nat)
  | duplicateRecord (entity field value : String)
  | dbIntegrity (msg : String)
  | dbConnection (msg : String)
  | dbError (msg : String)
  deriving Repr, DecidableEq

/-- Whether an exception is (an instance of) `BusinessLogicException`,
following the class hierarchy in `custom_exceptions.py`. -/
def PyError.isBusinessLogic : PyError → Bool
  | .businessLogic _ => true
  | .insufficientStock _ _ _ => true
  | .duplicateRecord _ _ _ => true
  | .recordNotFound _ _ => true
  | _ => false

/-- The message a `DelegInsumosException` renders (its `str(e)` /
`.message`), per each constructor in `custom_exceptions.py`. -/
def PyError.message : PyError → String
  | .validation field msg =>
      "Error de validación en '" ++ field ++ "': " ++ msg
  | .recordNotFound entity ident =>
      "No se encontró " ++ entity ++ " con identificador: '" ++ ident ++ "'"
  | .businessLogic msg => msg
  | .insufficientStock nombre stock cant =>
      "Stock insuficiente para '" ++ nombre ++ "'. Disponible: " ++
        toString stock ++ ", Solicitado: " ++ toString cant
  | .duplicateRecord entity field value =>
      "Ya existe un " ++ entity ++ " con " ++ field ++ ": '" ++ value ++ "'"
  | .dbIntegrity msg => msg
  | .dbConnection msg => msg
  | .dbError msg => msg

/-- Python's whitespace test used by `str.strip()`. -/
def esEspacio (c : Char) : Bool :=
  c == ' ' || c == '\t' || c == '\n' || c == '\r'

/-- Python's `str.strip()` (whitespace removal at both ends). -/
def pyStrip (s : String) : String :=
  String.mk (((s.data.dropWhile esEspacio).reverse.dropWhile esEspacio).reverse)

/-- Errors the SQLite engine itself can raise while executing a statement
(`sqlite3.IntegrityError` for constraint / trigger-RAISE(ABORT) failures,
`sqlite3.OperationalError` for other statement errors such as a missing
column — both subclasses of `sqlite3.Error`). -/
inductive SqliteError where
  | integrityError (msg : String)
  | operationalError (msg : String)
  deriving Repr, DecidableEq

/-- A row of the `insumos` table as created by migration 001 (plus the
`codigo` column of migration 005).  `cantidad_actual`, `cantidad_minima`
and `cantidad_maxima` carry the column CHECK constraints `>= 0`, so they
are `Nat`.  `precio_unitario` is kept as a `Nat` amount. -/
structure Insumo where
  id : Nat
  nombre : String
  categoria : String
  cantidad_actual : Nat
  cantidad_minima : Nat
  cantidad_maxima : Nat
  unidad_medida : String
  precio_unitario : Nat
  proveedor : String
  fecha_actualizacion : Nat
  activo : Bool
  codigo : String
  deriving Repr, DecidableEq

/-- A row of the `empleados` table (migration 001 plus `codigo`). -/
structure Empleado where
  id : Nat
  nombre_completo : String
  cargo : String
  departamento : String
  cedula : String
  email : String
  telefono : String
  activo : Bool
  codigo : String
  deriving Repr, DecidableEq

/-- A row of the `entregas` table (migration 001 plus `codigo`).
`cantidad` carries the CHECK constraint `> 0` only through the insert path,
so it is a plain `Nat` here; `fecha_entrega` is the creation timestamp. -/
structure Entrega where
  id : Nat
  empleado_id : Nat
  insumo_id : Nat
  cantidad : Nat
  fecha_entrega : Nat
  observaciones : String
  entregado_por : String
  codigo : String
  deriving Repr, DecidableEq

/-- The relational store: the three core tables plus the AUTOINCREMENT
counters for `entregas.id` and `empleados.id`. -/
structure DBState where
  insumos : List Insumo
  empleados : List Empleado
  entregas : List Entrega
  nextEntregaId : Nat
  nextEmpleadoId : Nat
  deriving Repr, DecidableEq

/-- `SELECT * FROM insumos WHERE id = ?` (first matching row). -/
def DBState.findInsumo (db : DBState) (insumoId : Nat) : Option Insumo :=
  db.insumos.find? (fun i => i.id == insumoId)

/-- `SELECT * FROM empleados WHERE id = ?` (first matching row). -/
def DBState.findEmpleado (db : DBState) (empleadoId : Nat) : Option Empleado :=
  db.empleados.find? (fun e => e.id == empleadoId)

/-- `SELECT * FROM entregas WHERE id = ?` (first matching row). -/
def DBState.findEntrega (db : DBState) (entregaId : Nat) : Option Entrega :=
  db.entregas.find? (fun e => e.id == entregaId)

/-!
## Connection / transaction manager (`src/database/connection.py`)

`DatabaseConnection.get_cursor(transaction=True)` starts a `BEGIN
IMMEDIATE` transaction, commits on success, and on any
`sqlite3.IntegrityError` rolls back and re-raises
`DatabaseIntegrityException(str(e))`; on any other `sqlite3.Error` it
rolls back and re-raises `DatabaseConnectionException("Error de base de
datos: " + str(e))`.  A body is modelled as the pair of the state it
would leave and the SQLite outcome of its statements.
-/

/-- `get_cursor(transaction=True)` wrapped around a body: commit on
success, rollback (restore the entry state) and translate the exception
otherwise.  Mirrors `DatabaseConnection.get_cursor`. -/
def runTransaction {α : Type} (db : DBState)
    (body : DBState → DBState × Except SqliteError α) :
    DBState × Except PyError α :=
  match body db with
  | (db', .ok a) => (db', .ok a)
  | (_, .error (.integrityError m)) => (db, .error (.dbIntegrity m))
  | (_, .error (.operationalError m)) =>
      (db, .error (.dbConnection ("Error de base de datos: " ++ m)))

/-!
## Stock view (`vw_stock_alerts`, migration 004 in `src/database/migrations.py`)
-/

/-- The `CASE` expression of `vw_stock_alerts` deriving `estado_stock`. -/
def estado_stock (cantidadActual cantidadMinima : Nat) : String :=
  if cantidadActual == 0 then "CRITICO"
  else if cantidadActual ≤ cantidadMinima then "BAJO"
  else "NORMAL"

/-- The `CASE` expression of `vw_stock_alerts` deriving `color_estado`. -/
def color_estado (cantidadActual cantidadMinima : Nat) : String :=
  if cantidadActual == 0 then "#F44336"
  else if cantidadActual ≤ cantidadMinima then "#FF9800"
  else "#4CAF50"

/-- A row of the `vw_stock_alerts` view. -/
structure StockAlertRow where
  id : Nat
  nombre : String
  categoria : String
  cantidad_actual : Nat
  cantidad_minima : Nat
  unidad_medida : String
  estado_stock : String
  color_estado : String
  deriving Repr, DecidableEq

/-- `vw_stock_alerts`: one row per active insumo with the derived state
columns.  The view's `ORDER BY cantidad_actual ASC, nombre ASC` is a
display ordering and is not reproduced; rows are kept in table order. -/
def vw_stock_alerts (db : DBState) : List StockAlertRow :=
  (db.insumos.filter (fun i => i.activo)).map fun i =>
    { id := i.id, nombre := i.nombre, categoria := i.categoria,
      cantidad_actual := i.cantidad_actual,
      cantidad_minima := i.cantidad_minima,
      unidad_medida := i.unidad_medida,
      estado_stock := estado_stock i.cantidad_actual i.cantidad_minima,
      color_estado := color_estado i.cantidad_actual i.cantidad_minima }

/-- `InsumoRepository.get_stock_alerts`:
`SELECT * FROM vw_stock_alerts WHERE estado_stock IN ('BAJO', 'CRITICO')`. -/
def get_stock_alerts (db : DBState) : List StockAlertRow :=
  (vw_stock_alerts db).filter
    (fun r => r.estado_stock == "BAJO" || r.estado_stock == "CRITICO")

/-!
## Delivery insert with triggers (migrations 001/003, `EntregaRepository.create`)

One `INSERT INTO entregas ...` statement executes, in order:
the BEFORE INSERT trigger `tr_entregas_validate_stock` (aborts with
`RAISE(ABORT, 'Stock insuficiente para realizar la entrega')` when the
referenced insumo's `cantidad_actual` is below `NEW.cantidad`; its `WHEN`
subquery is NULL — hence no abort — when the insumo row is missing), the
`CHECK(cantidad > 0)` and FOREIGN KEY constraints, the row insert, and the
AFTER INSERT trigger `tr_entregas_update_stock` (decrements the insumo's
`cantidad_actual` by `NEW.cantidad` and sets `fecha_actualizacion` to
`CURRENT_TIMESTAMP`).  All of it belongs to the single statement, so it is
one body step here; `RAISE(ABORT)` surfaces as `sqlite3.IntegrityError`.
-/

/-- The `INSERT INTO entregas` statement body, triggers included. -/
def insertEntregaStmt (empleadoId insumoId cantidad : Nat)
    (observaciones entregadoPor codigo : String) (now : Nat)
    (db : DBState) : DBState × Except SqliteError Nat :=
  match db.findInsumo insumoId with
  | some ins =>
    if ins.cantidad_actual < cantidad then
      (db, .error (.integrityError "Stock insuficiente para realizar la entrega"))
    else if cantidad == 0 then
      (db, .error (.integrityError "CHECK constraint failed: cantidad > 0"))
    else
      match db.findEmpleado empleadoId with
      | some _ =>
        let newId := db.nextEntregaId
        let row : Entrega :=
          { id := newId, empleado_id := empleadoId, insumo_id := insumoId,
            cantidad := cantidad, fecha_entrega := now,
            observaciones := observaciones, entregado_por := entregadoPor,
            codigo := codigo }
        let insumos' := db.insumos.map fun i =>
          if i.id == insumoId then
            { i with cantidad_actual := i.cantidad_actual - cantidad,
                     fecha_actualizacion := now }
          else i
        ({ db with entregas := db.entregas ++ [row], insumos := insumos',
                   nextEntregaId := newId + 1 },
         .ok newId)
      | none => (db, .error (.integrityError "FOREIGN KEY constraint failed"))
  | none => (db, .error (.integrityError "FOREIGN KEY constraint failed"))

/-- `EntregaRepository.create`: runs the insert through
`db_connection.execute_command` (a transactional cursor) and wraps any
escaping exception in `DatabaseException("Error creando entrega: ...")`
via its `except Exception` clause. -/
def entregaRepoCreate (db : DBState) (empleadoId insumoId cantidad : Nat)
    (observaciones entregadoPor codigo : String) (now : Nat) :
    DBState × Except PyError Nat :=
  match runTransaction db
      (insertEntregaStmt empleadoId insumoId cantidad observaciones
        entregadoPor codigo now) with
  | (db', .ok newId) => (db', .ok newId)
  | (db', .error e) =>
      (db', .error (.dbError ("Error creando entrega: " ++ e.message)))

/-!
## Delivery service (`src/services/micro_entregas.py`)
-/

/-- `Empleado.can_receive_supplies` (`src/models/empleado.py`). -/
def Empleado.can_receive_supplies (e : Empleado) : Bool :=
  e.activo && !(pyStrip e.nombre_completo == "")

/-- `MicroEmpleadosService.validar_empleado_para_entrega`, reduced to the
fields `crear_entrega` consumes: the `can_receive` flag (or a not-found
error). -/
def validar_empleado_para_entrega (db : DBState) (empleadoId : Nat) :
    Except PyError Bool :=
  match db.findEmpleado empleadoId with
  | none => .error (.recordNotFound "empleado" (toString empleadoId))
  | some emp => .ok emp.can_receive_supplies

/-- Result of `MicroInsumosService.validar_stock_para_entrega`. -/
structure StockValidation where
  can_fulfill : Bool
  insumo_nombre : String
  stock_actual : Nat
  cantidad_solicitada : Nat
  stock_restante : Nat
  deriving Repr, DecidableEq

/-- `MicroInsumosService.validar_stock_para_entrega`: read the insumo
(raising a not-found error when absent) and report whether
`Insumo.can_fulfill_request` — `cantidad_actual >= cantidad_solicitada` —
holds, together with the current and remaining stock. -/
def validar_stock_para_entrega (db : DBState) (insumoId cantidad : Nat) :
    Except PyError StockValidation :=
  match db.findInsumo insumoId with
  | none => .error (.recordNotFound "insumo" (toString insumoId))
  | some ins =>
      .ok { can_fulfill := decide (cantidad ≤ ins.cantidad_actual),
            insumo_nombre := ins.nombre,
            stock_actual := ins.cantidad_actual,
            cantidad_solicitada := cantidad,
            stock_restante := ins.cantidad_actual - cantidad }

/-- The typed form data reaching `MicroEntregasService.crear_entrega`. -/
structure EntregaFormData where
  empleado_id : Nat
  insumo_id : Nat
  cantidad : Nat
  observaciones : String
  entregado_por : String
  deriving Repr, DecidableEq

/-- `validate_entrega_data` (`src/utils/validators.py`): `empleado_id`,
`insumo_id` and `cantidad` must pass `validate_integer(min_val=1)`;
the two text fields are optional.  Returns the validated data. -/
def validate_entrega_data (d : EntregaFormData) : Except PyError EntregaFormData :=
  if d.empleado_id < 1 then
    .error (.validation "empleado_id" "debe ser mayor o igual a 1")
  else if d.insumo_id < 1 then
    .error (.validation "insumo_id" "debe ser mayor o igual a 1")
  else if d.cantidad < 1 then
    .error (.validation "cantidad" "debe ser mayor o igual a 1")
  else .ok d

/-- `MicroEntregasService.crear_entrega`: validate the form data, check
the employee can receive supplies, check stock sufficiency (raising
`InsufficientStockException(nombre, stock_actual, cantidad)` when the
request exceeds the available stock), then create the delivery row — the
database triggers decrement the stock inside the same transaction.
Returns the post-call database state and the created id (the returned
state equals the input state on every error path — the pre-checks only
read, and a failed insert is rolled back). -/
def crear_entrega (db : DBState) (d : EntregaFormData)
    (codigo : String) (now : Nat) : DBState × Except PyError Nat :=
  match validate_entrega_data d with
  | .error e => (db, .error e)
  | .ok vd =>
    match validar_empleado_para_entrega db vd.empleado_id with
    | .error e => (db, .error e)
    | .ok canReceive =>
      if !canReceive then
        (db, .error (.businessLogic "No puede recibir entregas"))
      else
        match validar_stock_para_entrega db vd.insumo_id vd.cantidad with
        | .error e => (db, .error e)
        | .ok sv =>
          if !sv.can_fulfill then
            (db, .error (.insufficientStock sv.insumo_nombre sv.stock_actual
              vd.cantidad))
          else
            entregaRepoCreate db vd.empleado_id vd.insumo_id vd.cantidad
              vd.observaciones vd.entregado_por codigo now

/-- `EntregaRepository.delete`: `DELETE FROM entregas WHERE id = ?` run
through `execute_command`; returns whether a row was removed.  No trigger
listens on `DELETE FROM entregas`, so only the `entregas` table changes. -/
def entregaRepoDelete (db : DBState) (entregaId : Nat) :
    DBState × Except PyError Bool :=
  runTransaction db fun db0 =>
    let remaining := db0.entregas.filter (fun e => !(e.id == entregaId))
    ({ db0 with entregas := remaining },
     .ok (decide (remaining.length < db0.entregas.length)))

/-- `MicroEntregasService.eliminar_entrega`: look the delivery up first
(`RecordNotFoundException` when absent), then delete the row.  The insumo
stock is deliberately not restored. -/
def eliminar_entrega (db : DBState) (entregaId : Nat) :
    DBState × Except PyError Bool :=
  match db.findEntrega entregaId with
  | none => (db, .error (.recordNotFound "entrega" (toString entregaId)))
  | some _ =>
    match entregaRepoDelete db entregaId with
    | (db', .ok true) => (db', .ok true)
    | (db', .ok false) =>
        (db', .error (.businessLogic "No se pudo eliminar la entrega seleccionada"))
    | (db', .error e) => (db', .error e)

/-!
## Employee repository (`EmpleadoRepository` in `src/database/operations.py`)

`EmpleadoRepository.create` builds
`INSERT INTO empleados (nombre_completo, cargo, departamento, cedula,
email, telefono, nota, codigo) VALUES (?,?,?,?,?,?,?,?)` and runs it
through `db_connection.execute_command`; it then tries to translate a
`sqlite3.IntegrityError` mentioning `UNIQUE constraint failed` into
`DuplicateRecordException("empleado", "cédula", cedula)` and wraps any
other exception in a generic `DatabaseException`.  The raw exception
class matters for that translation, so raised exceptions are tagged with
whether they are still a `sqlite3` error or an already-translated
application error.
-/

/-- A raised Python exception as seen by an `except` clause: either a raw
`sqlite3` error or an application (`DelegInsumosException`) error.  The
transactional cursor in `connection.py` catches every `sqlite3` error and
re-raises an application error, so repository code above it only ever
observes the `app` form. -/
inductive RaisedExc where
  | sqlite (e : SqliteError)
  | app (e : PyError)
  deriving Repr, DecidableEq

/-- Character-list version of `needle occurs at the start of hay`. -/
def charsStartWith : List Char → List Char → Bool
  | [], _ => true
  | _ :: _, [] => false
  | a :: as, b :: bs => a == b && charsStartWith (a :: as).tail (b :: bs).tail

/-- Character-list version of `needle occurs somewhere in hay`. -/
def charsContain (needle : List Char) : List Char → Bool
  | [] => charsStartWith needle []
  | b :: bs => charsStartWith needle (b :: bs) || charsContain needle bs

/-- Python's `needle in hay` substring test on strings. -/
def strContainsSub (hay needle : String) : Bool :=
  charsContain needle.data hay.data

/-- Columns of the `empleados` table on a database built solely by the
migration runner: migration 001 creates the table and migration 005 adds
only `codigo`. -/
def empleadosTableColumns : List String :=
  ["id", "nombre_completo", "cargo", "departamento", "cedula", "email",
   "telefono", "fecha_ingreso", "fecha_creacion", "activo", "codigo"]

/-- The column list named by `EmpleadoRepository.create`'s INSERT. -/
def empleadoInsertColumnNames : List String :=
  ["nombre_completo", "cargo", "departamento", "cedula", "email",
   "telefono", "nota", "codigo"]

/-- The form data `EmpleadoRepository.create` binds into its INSERT. -/
structure EmpleadoFormData where
  nombre_completo : String
  cargo : String
  departamento : String
  cedula : String
  email : String
  telefono : String
  nota : String
  deriving Repr, DecidableEq

/-- The `INSERT INTO empleados ...` statement body on the
migration-produced schema.  SQLite rejects the statement whenever it
names a column the table does not have (`sqlite3.OperationalError`);
otherwise the `UNIQUE` constraint on `cedula` is enforced, and on success
the row is inserted. -/
def empleadoInsertStmt (data : EmpleadoFormData) (codigo : String)
    (db : DBState) : DBState × Except SqliteError Nat :=
  if empleadoInsertColumnNames.all (fun c => empleadosTableColumns.contains c) then
    if db.empleados.any (fun e => e.cedula == data.cedula) then
      (db, .error (.integrityError "UNIQUE constraint failed: empleados.cedula"))
    else
      let newId := db.nextEmpleadoId
      let row : Empleado :=
        { id := newId, nombre_completo := data.nombre_completo,
          cargo := data.cargo, departamento := data.departamento,
          cedula := data.cedula, email := data.email,
          telefono := data.telefono, activo := true, codigo := codigo }
      ({ db with empleados := db.empleados ++ [row],
                 nextEmpleadoId := newId + 1 },
       .ok newId)
  else
    (db, .error (.operationalError "table empleados has no column named nota"))

/-- The `except` clauses of `EmpleadoRepository.create`:
`except sqlite3.IntegrityError` (translating a `UNIQUE constraint failed`
into `DuplicateRecordException("empleado", "cédula", cedula)`) followed by
`except Exception` (wrapping anything else in a generic
`DatabaseException("Error creando empleado: ...")`). -/
def empleadoCreateExceptClauses (cedula : String) (e : RaisedExc) : PyError :=
  match e with
  | .sqlite (.integrityError m) =>
      if strContainsSub m "UNIQUE constraint failed" then
        .duplicateRecord "empleado" "cédula" cedula
      else .dbError ("Error de integridad creando empleado: " ++ m)
  | .sqlite (.operationalError m) =>
      .dbError ("Error creando empleado: " ++ m)
  | .app pe =>
      .dbError ("Error creando empleado: " ++ pe.message)

/-- `EmpleadoRepository.create`: execute the INSERT through a
transactional cursor (which already converts any `sqlite3` error into an
application error) and then apply the repository's own `except`
clauses to whatever escapes. -/
def empleadoRepoCreate (db : DBState) (data : EmpleadoFormData)
    (codigo : String) : DBState × Except PyError Nat :=
  match runTransaction db (empleadoInsertStmt data codigo) with
  | (db', .ok newId) => (db', .ok newId)
  | (db', .error pe) =>
      (db', .error (empleadoCreateExceptClauses data.cedula (.app pe)))

/-- `EmpleadoRepository.delete`.  Soft mode flips `activo` through
`update` (a not-found id raises, and the surrounding `except Exception`
wraps it).  Hard mode first counts `entregas` rows referencing the
employee and raises `DatabaseException` when any exist — that raise
happens inside the method's own `try`, so its `except Exception` clause
re-wraps the message; otherwise the row is deleted (the schema's
`ON DELETE CASCADE` would also drop the employee's deliveries, but this
path is only reached when there are none). -/
def empleadoRepoDelete (db : DBState) (empleadoId : Nat)
    (softDelete : Bool) : DBState × Except PyError Bool :=
  if softDelete then
    match db.findEmpleado empleadoId with
    | none =>
        (db, .error (.dbError ("Error eliminando empleado: " ++
          (PyError.recordNotFound "empleado" (toString empleadoId)).message)))
    | some _ =>
        let empleados' := db.empleados.map fun e =>
          if e.id == empleadoId then { e with activo := false } else e
        ({ db with empleados := empleados' }, .ok true)
  else
    let entregasCount :=
      (db.entregas.filter (fun e => e.empleado_id == empleadoId)).length
    if 0 < entregasCount then
      (db, .error (.dbError ("Error eliminando empleado: " ++
        "No se puede eliminar el empleado porque tiene " ++
        toString entregasCount ++
        " entrega(s) asociada(s). Use eliminación suave (desactivar) en su lugar.")))
    else
      match runTransaction db (fun db0 =>
          let empleados' := db0.empleados.filter (fun e => !(e.id == empleadoId))
          let entregas' := db0.entregas.filter (fun e => !(e.empleado_id == empleadoId))
          ({ db0 with empleados := empleados', entregas := entregas' },
           .ok (decide (empleados'.length < db0.empleados.length)))) with
      | (db', .ok removed) => (db', .ok removed)
      | (db', .error pe) =>
          (db', .error (.dbError ("Error eliminando empleado: " ++ pe.message)))

/-!
## Migration runner (`src/database/migrations.py`)

Schema effects are tracked at the level of named schema objects
(tables, indexes, triggers, views, columns).  Every `CREATE ...
IF NOT EXISTS` is an add-if-absent, migration 005's guarded
`ALTER TABLE ... ADD COLUMN` (its `except` swallows `duplicate column
name`) likewise, and migration 006's `DROP VIEW IF EXISTS` +
`CREATE VIEW IF NOT EXISTS` is a drop followed by an add.  The
`MigrationManager` records an applied version in `schema_migrations`
right after a migration's `up()` succeeds and skips any version already
recorded.
-/

/-- `CREATE ... IF NOT EXISTS`: add the named object unless present. -/
def createIfNotExists (objs : List String) (name : String) : List String :=
  if objs.contains name then objs else objs ++ [name]

/-- `DROP ... IF EXISTS`: remove the named object if present. -/
def dropIfExists (objs : List String) (name : String) : List String :=
  objs.filter (fun o => !(o == name))

/-- Objects created by `InitialMigration` (001). -/
def migration001Objects : List String :=
  ["table:insumos", "table:empleados", "table:entregas"]

/-- Objects created by `IndexMigration` (002). -/
def migration002Objects : List String :=
  ["index:idx_insumos_categoria", "index:idx_insumos_stock_bajo",
   "index:idx_insumos_activos", "index:idx_insumos_nombre",
   "index:idx_empleados_cedula", "index:idx_empleados_departamento",
   "index:idx_empleados_activos", "index:idx_empleados_nombre",
   "index:idx_entregas_fecha", "index:idx_entregas_empleado",
   "index:idx_entregas_insumo", "index:idx_entregas_empleado_fecha",
   "index:idx_entregas_insumo_fecha"]

/-- Objects created by `TriggerMigration` (003). -/
def migration003Objects : List String :=
  ["trigger:tr_insumos_updated_at", "trigger:tr_entregas_update_stock",
   "trigger:tr_entregas_validate_stock"]

/-- Objects created by `ViewsMigration` (004). -/
def migration004Objects : List String :=
  ["view:vw_stock_alerts", "view:vw_entregas_completas",
   "view:vw_resumen_inventario"]

/-- Objects created by `UniqueIdsMigration` (005): the three `codigo`
columns (add-if-absent via the swallowed duplicate-column error) and the
three unique indexes; the code backfill writes rows, not schema. -/
def migration005Objects : List String :=
  ["column:insumos.codigo", "column:empleados.codigo",
   "column:entregas.codigo", "index:uq_insumos_codigo",
   "index:uq_empleados_codigo", "index:uq_entregas_codigo"]

/-- The `up()` of each migration version, as its effect on the set of
schema objects. -/
def migrationUp : String → List String → List String
  | "001", objs => migration001Objects.foldl createIfNotExists objs
  | "002", objs => migration002Objects.foldl createIfNotExists objs
  | "003", objs => migration003Objects.foldl createIfNotExists objs
  | "004", objs => migration004Objects.foldl createIfNotExists objs
  | "005", objs => migration005Objects.foldl createIfNotExists objs
  | "006", objs =>
      createIfNotExists (dropIfExists objs "view:vw_entregas_completas")
        "view:vw_entregas_completas"
  | _, objs => objs

/-- The migration list of `MigrationManager.__init__`, in order. -/
def migrationVersions : List String :=
  ["001", "002", "003", "004", "005", "006"]

/-- Numeric value of a version string (versions sort by this number
exactly as they sort lexicographically, all being zero-padded
3-digit strings). -/
def versionNum (v : String) : Nat :=
  v.data.foldl (fun n c => n * 10 + (c.toNat - 48)) 0

/-- Schema-level state: the `schema_migrations` control table and the
named schema objects present. -/
structure SchemaState where
  appliedVersions : List String
  objects : List String
  deriving Repr, DecidableEq

/-- `MigrationManager.apply_migration`: skip a version already recorded
in `schema_migrations`; otherwise run its `up()` and record it. -/
def apply_migration (s : SchemaState) (v : String) : SchemaState :=
  if s.appliedVersions.contains v then s
  else { appliedVersions := s.appliedVersions ++ [v],
         objects := migrationUp v s.objects }

/-- `MigrationManager.migrate_up`: apply all known migrations in list
order. -/
def migrate_up (s : SchemaState) : SchemaState :=
  migrationVersions.foldl apply_migration s

/-!
## Alert derivation engine (`src/services/micro_alertas.py`)

Alerts live in the in-memory `active_alerts` dict keyed by
`_make_alert_key(type, entity_id, extra)` plus an append-only
`alert_history` list.  The `data` payload dict of the Python `Alert` is
not carried (no claim depends on it); `created_at` is the `now`
timestamp at construction.
-/

/-- An in-memory alert (`Alert` in `micro_alertas.py`). -/
structure Alert where
  alert_type : String
  severity : String
  title : String
  message : String
  entity_id : Option Nat
  created_at : Nat
  resolved : Bool
  deriving Repr, DecidableEq

/-- The `active_alerts` dict: insertion-ordered key/alert pairs. -/
abbrev AlertMap := List (String × Alert)

/-- Python `key in dict`. -/
def dictContains (m : AlertMap) (k : String) : Bool :=
  m.any (fun kv => kv.1 == k)

/-- Python `dict[key] = value`: replace in place when the key exists,
append otherwise. -/
def dictSet (m : AlertMap) (k : String) (a : Alert) : AlertMap :=
  if dictContains m k then
    m.map (fun kv => if kv.1 == k then (k, a) else kv)
  else m ++ [(k, a)]

/-- The engine's mutable state: `active_alerts` and `alert_history`. -/
structure AlertState where
  active_alerts : AlertMap
  alert_history : List Alert
  deriving Repr, DecidableEq

/-- `MicroAlertasService._make_alert_key`.  Python's
`f"{type}:{entity_id or 'SYS'}:{extra or ''}"` renders a falsy
`entity_id` (absent or 0) as `SYS`. -/
def make_alert_key (alertType : String) (entityId : Option Nat)
    (extra : String) : String :=
  alertType ++ ":" ++
    (match entityId with
      | some n => if n == 0 then "SYS" else toString n
      | none => "SYS") ++
    ":" ++ extra

/-- `MicroAlertasService._add_alert`: store under the given key (or the
key derived from the alert itself), unconditionally overwriting any alert
already held under that key, and append to the history. -/
def add_alert (st : AlertState) (key : Option String) (alert : Alert) :
    AlertState :=
  let k := match key with
    | some k => k
    | none => make_alert_key alert.alert_type alert.entity_id ""
  { active_alerts := dictSet st.active_alerts k alert,
    alert_history := st.alert_history ++ [alert] }

/-- The `if key not in self.active_alerts: ... _add_alert(alert, key)`
loop shared by the stock and delivery verification passes, folded over a
candidate list of (key, alert) pairs; returns the engine state and the
list of newly created alerts. -/
def processKeyedCandidates (st : AlertState) (new : List Alert) :
    List (String × Alert) → AlertState × List Alert
  | [] => (st, new)
  | (k, a) :: rest =>
      if dictContains st.active_alerts k then
        processKeyedCandidates st new rest
      else
        processKeyedCandidates (add_alert st (some k) a) (new ++ [a]) rest

/-- The `STOCK_CRITICO` alert built for a critical view row. -/
def stockCriticoAlert (now : Nat) (r : StockAlertRow) : Alert :=
  { alert_type := "STOCK_CRITICO", severity := "CRITICAL",
    title := "Stock agotado: " ++ r.nombre,
    message := "El insumo '" ++ r.nombre ++
      "' está completamente agotado. Cantidad actual: " ++
      toString r.cantidad_actual ++ " " ++ r.unidad_medida,
    entity_id := some r.id, created_at := now, resolved := false }

/-- The `STOCK_BAJO` alert built for a low-stock view row. -/
def stockBajoAlert (now : Nat) (r : StockAlertRow) : Alert :=
  { alert_type := "STOCK_BAJO", severity := "HIGH",
    title := "Stock bajo: " ++ r.nombre,
    message := "El insumo '" ++ r.nombre ++
      "' tiene stock por debajo del mínimo. Cantidad actual: " ++
      toString r.cantidad_actual ++ " " ++ r.unidad_medida ++
      ", Mínimo requerido: " ++ toString r.cantidad_minima ++ " " ++
      r.unidad_medida,
    entity_id := some r.id, created_at := now, resolved := false }

/-- The keyed candidates of `_verificar_alertas_stock`: the critical
rows of `obtener_alertas_stock` first, then the low ones, each under
`_make_alert_key(type, insumo_id)`. -/
def stockCandidates (db : DBState) (now : Nat) : List (String × Alert) :=
  let rows := get_stock_alerts db
  ((rows.filter (fun r => r.estado_stock == "CRITICO")).map fun r =>
      (make_alert_key "STOCK_CRITICO" (some r.id) "", stockCriticoAlert now r)) ++
  ((rows.filter (fun r => r.estado_stock == "BAJO")).map fun r =>
      (make_alert_key "STOCK_BAJO" (some r.id) "", stockBajoAlert now r))

/-- `MicroAlertasService._verificar_alertas_stock` (its non-raising
path: the repository reads are modelled as total). -/
def verificar_alertas_stock (db : DBState) (now : Nat) (st : AlertState) :
    AlertState × List Alert :=
  processKeyedCandidates st [] (stockCandidates db now)

/-- Calendar-day of a timestamp (seconds → day index); stands for
`DATE(fecha_entrega)`. -/
def diaDe (t : Nat) : Nat := t / 86400

/-- `obtener_entregas_hoy`'s row set: today's `entregas` rows as seen
through `vw_entregas_completas` (whose INNER JOINs drop rows whose
employee or insumo row is missing). -/
def entregasHoyRows (db : DBState) (today : Nat) : List Entrega :=
  db.entregas.filter fun e =>
    diaDe e.fecha_entrega == today &&
    (db.findInsumo e.insumo_id).isSome &&
    (db.findEmpleado e.empleado_id).isSome

/-- First-seen-order deduplication of a list of ids (the iteration order
of the Python dict built per insumo). -/
def firstSeen (acc : List Nat) : List Nat → List Nat
  | [] => acc
  | x :: xs => if acc.contains x then firstSeen acc xs
               else firstSeen (acc ++ [x]) xs

/-- The `ENTREGAS_FRECUENTES` alert for an insumo with `count` deliveries
today. -/
def entregasFrecuentesAlert (now : Nat) (insumoId : Nat) (nombre : String)
    (count : Nat) : Alert :=
  { alert_type := "ENTREGAS_FRECUENTES", severity := "MEDIUM",
    title := "Entregas frecuentes: " ++ nombre,
    message := "El insumo '" ++ nombre ++ "' ha tenido " ++
      toString count ++ " entregas hoy. " ++
      "Esto podría indicar alta demanda o problemas de stock.",
    entity_id := some insumoId, created_at := now, resolved := false }

/-- The keyed candidates of `_verificar_alertas_entregas`: per-insumo
counts of today's deliveries, alerting when `count >= umbral`, keyed with
today's date as the extra discriminator. -/
def entregasFrecuentesCandidates (db : DBState) (today now umbral : Nat) :
    List (String × Alert) :=
  let rows := entregasHoyRows db today
  (firstSeen [] (rows.map (fun e => e.insumo_id))).filterMap fun insumoId =>
    let count := (rows.filter (fun e => e.insumo_id == insumoId)).length
    if umbral ≤ count then
      let nombre := ((db.findInsumo insumoId).map (fun i => i.nombre)).getD ""
      some (make_alert_key "ENTREGAS_FRECUENTES" (some insumoId) (toString today),
            entregasFrecuentesAlert now insumoId nombre count)
    else none

/-- `MicroAlertasService._verificar_alertas_entregas` (non-raising path). -/
def verificar_alertas_entregas (db : DBState) (today now umbral : Nat)
    (st : AlertState) : AlertState × List Alert :=
  processKeyedCandidates st [] (entregasFrecuentesCandidates db today now umbral)

/-- One entry of `_verificar_consistencia_datos`'s result list. -/
structure Inconsistencia where
  tipo : String
  message : String
  deriving Repr, DecidableEq

/-- `MicroAlertasService._verificar_consistencia_datos`: for every active
insumo, a defensive negative-stock check (never true on the `Nat`-valued
CHECK-constrained column) and a min>max range check; then for every
active empleado, a blank-cedula check. -/
def verificar_consistencia_datos (db : DBState) : List Inconsistencia :=
  ((db.insumos.filter (fun i => i.activo)).flatMap fun i =>
    (if (i.cantidad_actual : Int) < 0 then
      [{ tipo := "stock_negativo",
         message := "Insumo '" ++ i.nombre ++ "' tiene stock negativo: " ++
           toString i.cantidad_actual }]
     else []) ++
    (if i.cantidad_maxima < i.cantidad_minima then
      [{ tipo := "rangos_invalidos",
         message := "Insumo '" ++ i.nombre ++ "' tiene mínimo mayor que máximo" }]
     else [])) ++
  ((db.empleados.filter (fun e => e.activo)).flatMap fun e =>
    if pyStrip e.cedula == "" then
      [{ tipo := "empleado_sin_cedula",
         message := "Empleado '" ++ e.nombre_completo ++
           "' no tiene cédula registrada" }]
    else [])

/-- The `DATA_INCONSISTENCY` alert built from an inconsistency entry;
the Python code passes no `entity_id`, so every such alert keys as
`DATA_INCONSISTENCY:SYS:`. -/
def dataInconsistencyAlert (now : Nat) (inc : Inconsistencia) : Alert :=
  { alert_type := "DATA_INCONSISTENCY", severity := "HIGH",
    title := "Inconsistencia de datos: " ++ inc.tipo,
    message := inc.message,
    entity_id := none, created_at := now, resolved := false }

/-- `MicroAlertasService._verificar_alertas_sistema` (non-raising path):
every inconsistency becomes an alert passed to `_add_alert` directly —
with no `key not in self.active_alerts` guard. -/
def verificar_alertas_sistema (db : DBState) (now : Nat) (st : AlertState) :
    AlertState × List Alert :=
  (verificar_consistencia_datos db).foldl
    (fun (acc : AlertState × List Alert) inc =>
      let alert := dataInconsistencyAlert now inc
      (add_alert acc.1 none alert, acc.2 ++ [alert]))
    (st, [])

/-- `MicroAlertasService.verificar_todas_las_alertas`: run the three
sub-passes in order and report the total number of newly created
alerts. -/
def verificar_todas_las_alertas (db : DBState) (today now umbral : Nat)
    (st : AlertState) : AlertState × Nat :=
  let p1 := verificar_alertas_stock db now st
  let p2 := verificar_alertas_entregas db today now umbral p1.1
  let p3 := verificar_alertas_sistema db now p2.1
  (p3.1, p1.2.length + p2.2.length + p3.2.length)

/-!
## Concrete example states (used by witnesses and counterexamples)
-/

/-- The empty database. -/
def dbVacia : DBState :=
  { insumos := [], empleados := [], entregas := [],
    nextEntregaId := 1, nextEmpleadoId := 1 }

/-- An example supply with 10 units in stock, minimum 5. -/
def insA : Insumo :=
  { id := 1, nombre := "Papel A4", categoria := "Papelería",
    cantidad_actual := 10, cantidad_minima := 5, cantidad_maxima := 50,
    unidad_medida := "unidad", precio_unitario := 100, proveedor := "",
    fecha_actualizacion := 0, activo := true, codigo := "INS-2025-0001" }

/-- An example active employee with a valid cedula. -/
def empA : Empleado :=
  { id := 1, nombre_completo := "Ana María", cargo := "Analista",
    departamento := "Sistemas", cedula := "12345678", email := "",
    telefono := "", activo := true, codigo := "EMP-REG-0001" }

/-- A database with one supply and one employee. -/
def dbW : DBState :=
  { insumos := [insA], empleados := [empA], entregas := [],
    nextEntregaId := 1, nextEmpleadoId := 2 }

/-- `dbW` after a successful delivery of 4 units at time 500. -/
def dbWAfter : DBState :=
  { insumos := [{ insA with cantidad_actual := 6, fecha_actualizacion := 500 }],
    empleados := [empA],
    entregas := [{ id := 1, empleado_id := 1, insumo_id := 1, cantidad := 4,
                   fecha_entrega := 500, observaciones := "",
                   entregado_por := "", codigo := "ENT-0001" }],
    nextEntregaId := 2, nextEmpleadoId := 2 }

/-- A database whose one supply sits below its minimum (stock 4 ≤ min 5). -/
def dbBaja : DBState :=
  { insumos := [{ insA with cantidad_actual := 4 }], empleados := [empA],
    entregas := [], nextEntregaId := 1, nextEmpleadoId := 2 }

/-- A database with one active employee whose cedula is blank — a state
the schema admits (`cedula` is NOT NULL but may be the empty string) and
that `_verificar_consistencia_datos` reports as an inconsistency. -/
def dbCedulaVacia : DBState :=
  { insumos := [],
    empleados := [{ id := 1, nombre_completo := "Ana", cargo := "",
                    departamento := "", cedula := "", email := "",
                    telefono := "", activo := true, codigo := "EMP-REG-0001" }],
    entregas := [], nextEntregaId := 1, nextEmpleadoId := 2 }

/-- A database with one employee who has one recorded delivery. -/
def dbEntregaUno : DBState :=
  { insumos := [insA], empleados := [empA],
    entregas := [{ id := 1, empleado_id := 1, insumo_id := 1, cantidad := 2,
                   fecha_entrega := 0, observaciones := "",
                   entregado_por := "", codigo := "ENT-0001" }],
    nextEntregaId := 2, nextEmpleadoId := 2 }

/-- The empty alert-engine state. -/
def st0 : AlertState := { active_alerts := [], alert_history := [] }

/-!
## Helper lemmas
-/

/-- `find?` commutes with a `map` whose function preserves the searched
predicate. -/
theorem find?_map_pres {α : Type} (l : List α) (p : α → Bool) (f : α → α)
    (hf : ∀ x, p (f x) = p x) :
    (l.map f).find? p = (l.find? p).map f := by
  induction l with
  | nil => rfl
  | cons x xs ih =>
      by_cases hx : p x
      · simp [List.find?_cons, hf x, hx]
      · simp only [Bool.not_eq_true] at hx
        simp [List.find?_cons, hf x, hx, ih]

/-- Case analysis of the `vw_stock_alerts` CASE expression. -/
theorem estado_stock_spec (a m : Nat) :
    (estado_stock a m = "CRITICO" ↔ a = 0) ∧
    (estado_stock a m = "BAJO" ↔ 0 < a ∧ a ≤ m) ∧
    (estado_stock a m = "NORMAL" ↔ m < a) := by
  unfold estado_stock
  rcases Nat.eq_zero_or_pos a with h0 | h0
  · subst h0
    simp only [beq_self_eq_true, if_true]
    refine ⟨by simp, ?_, ?_⟩
    · exact ⟨fun h => absurd h (by decide), fun h => absurd h.1 (by omega)⟩
    · exact ⟨fun h => absurd h (by decide), fun h => absurd h (by omega)⟩
  · have hne : (a == 0) = false := by
      simp [Nat.pos_iff_ne_zero.mp h0]
    rw [hne, if_neg Bool.false_ne_true]
    by_cases hle : a ≤ m
    · rw [if_pos hle]
      refine ⟨⟨fun h => absurd h (by decide), fun h => absurd h0 (by omega)⟩,
        ⟨fun _ => ⟨h0, hle⟩, fun _ => rfl⟩,
        ⟨fun h => absurd h (by decide), fun h => absurd h (by omega)⟩⟩
    · rw [if_neg hle]
      refine ⟨⟨fun h => absurd h (by decide), fun h => absurd h0 (by omega)⟩,
        ⟨fun h => absurd h (by decide), fun h => absurd h.2 hle⟩,
        ⟨fun _ => by omega, fun _ => rfl⟩⟩

/-- Claim C7: for every active supply, the derived stock status in
`vw_stock_alerts` is `CRITICO` exactly when `cantidad_actual = 0`,
`BAJO` exactly when `0 < cantidad_actual ≤ cantidad_minima`, and
`NORMAL` otherwise (`cantidad_minima < cantidad_actual`). -/
theorem stock_alert_view_estado_correct (db : DBState) (r : StockAlertRow)
    (hr : r ∈ vw_stock_alerts db) :
    (r.estado_stock = "CRITICO" ↔ r.cantidad_actual = 0) ∧
    (r.estado_stock = "BAJO" ↔
      0 < r.cantidad_actual ∧ r.cantidad_actual ≤ r.cantidad_minima) ∧
    (r.estado_stock = "NORMAL" ↔ r.cantidad_minima < r.cantidad_actual) := by
  unfold vw_stock_alerts at hr
  rcases List.mem_map.mp hr with ⟨i, -, rfl⟩
  exact estado_stock_spec i.cantidad_actual i.cantidad_minima

/-- Witness for C7 at a concrete database: the `dbBaja` supply (stock 4,
minimum 5) yields a `BAJO` row whose status satisfies the
characterisation. -/
theorem stock_alert_view_estado_correct_witness :
    (("BAJO" : String) = "CRITICO" ↔ (4 : Nat) = 0) ∧
    (("BAJO" : String) = "BAJO" ↔ (0 : Nat) < 4 ∧ (4 : Nat) ≤ 5) ∧
    (("BAJO" : String) = "NORMAL" ↔ (5 : Nat) < 4) :=
  stock_alert_view_estado_correct dbBaja
    { id := 1, nombre := "Papel A4", categoria := "Papelería",
      cantidad_actual := 4, cantidad_minima := 5, unidad_medida := "unidad",
      estado_stock := "BAJO", color_estado := "#FF9800" }
    (by decide)

/-- Claim C5: a transactional cursor commits on success; an integrity
violation in the body rolls the state back and surfaces as
`DatabaseIntegrityException`; any other SQLite error rolls the state
back and surfaces as `DatabaseConnectionException`. -/
theorem get_cursor_transaction_semantics {α : Type} (db db' : DBState)
    (body : DBState → DBState × Except SqliteError α) (a : α) (m : String) :
    (body db = (db', .ok a) → runTransaction db body = (db', .ok a)) ∧
    (body db = (db', .error (.integrityError m)) →
      runTransaction db body = (db, .error (.dbIntegrity m))) ∧
    (body db = (db', .error (.operationalError m)) →
      runTransaction db body =
        (db, .error (.dbConnection ("Error de base de datos: " ++ m)))) := by
  refine ⟨fun h => ?_, fun h => ?_, fun h => ?_⟩ <;>
    · unfold runTransaction
      rw [h]

/-- Witness for C5: a committing body and the two rollback translations
at concrete states. -/
theorem get_cursor_transaction_semantics_witness :
    runTransaction dbVacia (fun d => (d, Except.ok (7 : Nat))) =
      (dbVacia, Except.ok 7) ∧
    runTransaction dbVacia
        (fun _ => (dbW, (Except.error (SqliteError.integrityError "uq") : Except SqliteError Nat))) =
      (dbVacia, Except.error (PyError.dbIntegrity "uq")) ∧
    runTransaction dbVacia
        (fun _ => (dbW, (Except.error (SqliteError.operationalError "disk") : Except SqliteError Nat))) =
      (dbVacia, Except.error (PyError.dbConnection "Error de base de datos: disk")) :=
  ⟨(get_cursor_transaction_semantics dbVacia dbVacia
      (fun d => (d, Except.ok (7 : Nat))) 7 "uq").1 rfl,
   (get_cursor_transaction_semantics dbVacia dbW
      (fun _ => (dbW, (Except.error (SqliteError.integrityError "uq") : Except SqliteError Nat))) 7 "uq").2.1 rfl,
   (get_cursor_transaction_semantics dbVacia dbW
      (fun _ => (dbW, (Except.error (SqliteError.operationalError "disk") : Except SqliteError Nat))) 7 "disk").2.2 rfl⟩

/-- Claim C9: deleting a delivery (repository `delete` and the
`eliminar_entrega` service) removes only the `entregas` row: the
`insumos` table — in particular every `cantidad_actual` — and the
`empleados` table are untouched, and the decremented stock is not
restored. -/
theorem entrega_delete_pure_row_removal (db : DBState) (entregaId : Nat) :
    (entregaRepoDelete db entregaId).1.insumos = db.insumos ∧
    (entregaRepoDelete db entregaId).1.empleados = db.empleados ∧
    (entregaRepoDelete db entregaId).1.entregas =
      db.entregas.filter (fun e => !(e.id == entregaId)) ∧
    (eliminar_entrega db entregaId).1.insumos = db.insumos ∧
    (eliminar_entrega db entregaId).1.empleados = db.empleados := by
  have hdel : entregaRepoDelete db entregaId =
      ({ db with entregas := db.entregas.filter (fun e => !(e.id == entregaId)) },
       .ok (decide ((db.entregas.filter (fun e => !(e.id == entregaId))).length <
         db.entregas.length))) := by
    unfold entregaRepoDelete runTransaction
    rfl
  refine ⟨by rw [hdel], by rw [hdel], by rw [hdel], ?_, ?_⟩ <;>
    · unfold eliminar_entrega
      cases hfind : db.findEntrega entregaId
      · rfl
      · rw [hdel]
        cases hb : decide ((db.entregas.filter
            (fun e => !(e.id == entregaId))).length < db.entregas.length) <;> rfl

/-- Claim C10: on a schema produced solely by migrations 001–006 the
`empleados` table has no `nota` column, yet `EmpleadoRepository.create`'s
INSERT names one; the statement therefore fails for every input — the
SQLite operational error is translated to `DatabaseConnectionException`
by the cursor and wrapped into a generic `DatabaseException` by the
repository — and no employee row is created. -/
theorem empleado_create_always_fails_on_migrated_schema :
    ("nota" ∈ empleadoInsertColumnNames ∧ "nota" ∉ empleadosTableColumns) ∧
    ∀ (db : DBState) (data : EmpleadoFormData) (codigo : String),
      empleadoRepoCreate db data codigo =
        (db, .error (.dbError
          "Error creando empleado: Error de base de datos: table empleados has no column named nota")) :=
  ⟨by decide, fun db data codigo => rfl⟩

/-- Claim C4: when a storage-level UNIQUE violation on
`empleados.cedula` occurs, the transactional cursor already rewraps the
raw `sqlite3.IntegrityError` as `DatabaseIntegrityException`, so the
repository's `except sqlite3.IntegrityError` clause — the one that would
build `DuplicateRecordException("empleado", "cédula", value)` — never
matches and a generic `DatabaseException` escapes instead; the last
conjunct shows the dead clause would perform the claimed translation if
it ever saw the raw exception class. -/
theorem empleado_duplicate_cedula_translation_dead :
    runTransaction dbEntregaUno
        (fun d => (d, (.error (.integrityError "UNIQUE constraint failed: empleados.cedula") : Except SqliteError Nat))) =
      (dbEntregaUno, .error (.dbIntegrity "UNIQUE constraint failed: empleados.cedula")) ∧
    empleadoCreateExceptClauses "12345678"
        (.app (.dbIntegrity "UNIQUE constraint failed: empleados.cedula")) =
      .dbError "Error creando empleado: UNIQUE constraint failed: empleados.cedula" ∧
    (PyError.dbError
        "Error creando empleado: UNIQUE constraint failed: empleados.cedula").isBusinessLogic
      = false ∧
    empleadoCreateExceptClauses "12345678"
        (.sqlite (.integrityError "UNIQUE constraint failed: empleados.cedula")) =
      .duplicateRecord "empleado" "cédula" "12345678" := by
  refine ⟨rfl, ?_, rfl, ?_⟩ <;> decide

/-- Claim C8 (amended): hard-deleting an employee who has at least one
recorded delivery is rejected by the repository's pre-check — the state
is unchanged (no row deleted, no cascade) — but the error raised is a
generic `DatabaseException` (`EmpleadoRepository.delete` raises and then
re-wraps it in its own `except Exception` clause), not a
`BusinessLogicException`. -/
theorem empleado_hard_delete_with_entregas_rejected (db : DBState)
    (empleadoId : Nat)
    (h : 0 < (db.entregas.filter (fun e => e.empleado_id == empleadoId)).length) :
    (empleadoRepoDelete db empleadoId false).1 = db ∧
    ∃ m, (empleadoRepoDelete db empleadoId false).2 =
        Except.error (PyError.dbError m) ∧
      (PyError.dbError m).isBusinessLogic = false := by
  unfold empleadoRepoDelete
  rw [if_neg Bool.false_ne_true, if_pos h]
  exact ⟨rfl, _, rfl, rfl⟩

/-- Counterexample to C8 as stated: on a concrete database where
employee 1 has one delivery, the hard delete leaves the state unchanged
but raises a `DatabaseException` — an error that is not a
business-rule (`BusinessLogicException`) error. -/
theorem empleado_hard_delete_error_not_business_rule :
    (empleadoRepoDelete dbEntregaUno 1 false).1 = dbEntregaUno ∧
    (empleadoRepoDelete dbEntregaUno 1 false).2 =
      Except.error (PyError.dbError
        ("Error eliminando empleado: No se puede eliminar el empleado porque tiene " ++
         "1 entrega(s) asociada(s). Use eliminación suave (desactivar) en su lugar.")) ∧
    (PyError.dbError
        ("Error eliminando empleado: No se puede eliminar el empleado porque tiene " ++
         "1 entrega(s) asociada(s). Use eliminación suave (desactivar) en su lugar.")).isBusinessLogic
      = false :=
  ⟨rfl, rfl, rfl⟩

/-- Witness for C8 at the concrete `dbEntregaUno` state. -/
theorem empleado_hard_delete_with_entregas_rejected_witness :
    (empleadoRepoDelete dbEntregaUno 1 false).1 = dbEntregaUno ∧
    ∃ m, (empleadoRepoDelete dbEntregaUno 1 false).2 =
        Except.error (PyError.dbError m) ∧
      (PyError.dbError m).isBusinessLogic = false :=
  empleado_hard_delete_with_entregas_rejected dbEntregaUno 1 (by decide)

/-!
## Migration-runner lemmas (claim C6)
-/

/-- `apply_migration` preserves every recorded version. -/
theorem apply_migration_applied_keep (s : SchemaState) (w v : String)
    (h : v ∈ s.appliedVersions) : v ∈ (apply_migration s w).appliedVersions := by
  unfold apply_migration
  split
  · exact h
  · exact List.mem_append_left _ h

/-- After `apply_migration s v`, version `v` is recorded. -/
theorem apply_migration_applied_self (s : SchemaState) (v : String) :
    v ∈ (apply_migration s v).appliedVersions := by
  unfold apply_migration
  split
  · next hc => exact List.mem_of_elem_eq_true hc
  · exact List.mem_append_right _ (List.mem_singleton.mpr rfl)

/-- Folding the runner over a version list records every version that
was already recorded or appears in the list. -/
theorem foldl_apply_migration_applied (l : List String) (s : SchemaState)
    (v : String) (h : v ∈ s.appliedVersions ∨ v ∈ l) :
    v ∈ (l.foldl apply_migration s).appliedVersions := by
  induction l generalizing s with
  | nil => simpa using h
  | cons w ws ih =>
    simp only [List.foldl_cons]
    rcases h with h | h
    · exact ih _ (Or.inl (apply_migration_applied_keep s w v h))
    · rcases List.mem_cons.mp h with rfl | h
      · exact ih _ (Or.inl (apply_migration_applied_self s v))
      · exact ih _ (Or.inr h)

/-- If every version in the list is already recorded, the fold is a
no-op. -/
theorem foldl_apply_migration_skip (l : List String) (s : SchemaState)
    (h : ∀ v ∈ l, v ∈ s.appliedVersions) : l.foldl apply_migration s = s := by
  induction l with
  | nil => rfl
  | cons w ws ih =>
    have hskip : apply_migration s w = s := by
      unfold apply_migration
      rw [if_pos (List.elem_eq_true_of_mem (h w (List.mem_cons_self w ws)))]
    simp only [List.foldl_cons, hskip]
    exact ih (fun v hv => h v (List.mem_cons_of_mem _ hv))

/-- Claim C6: running `migrate_up` a second time changes nothing (every
version is already recorded, so every migration is skipped); on a fresh
database the runner records exactly versions 001–006 in increasing order
and creates no duplicate schema object. -/
theorem migrate_up_idempotent :
    (∀ s : SchemaState, migrate_up (migrate_up s) = migrate_up s) ∧
    (∀ (s : SchemaState) (v : String), v ∈ s.appliedVersions →
      apply_migration s v = s) ∧
    (migrate_up { appliedVersions := [], objects := [] }).appliedVersions =
      migrationVersions ∧
    migrationVersions.Chain' (fun a b => versionNum a < versionNum b) ∧
    (migrate_up { appliedVersions := [], objects := [] }).objects.Nodup := by
  refine ⟨fun s => ?_, fun s v h => ?_, by decide, ?_, by decide⟩
  · exact foldl_apply_migration_skip migrationVersions (migrate_up s)
      (fun v hv => foldl_apply_migration_applied migrationVersions s v (Or.inr hv))
  · unfold apply_migration
    rw [if_pos (List.elem_eq_true_of_mem h)]
  · simp only [migrationVersions, List.chain'_cons, List.chain'_singleton, and_true]
    refine ⟨?_, ?_, ?_, ?_, ?_⟩ <;> decide

/-- Witness for C6: the skip clause and idempotence at a concrete state. -/
theorem migrate_up_idempotent_witness :
    apply_migration { appliedVersions := ["001"], objects := ["table:insumos"] } "001" =
      { appliedVersions := ["001"], objects := ["table:insumos"] } ∧
    migrate_up (migrate_up { appliedVersions := [], objects := [] }) =
      migrate_up { appliedVersions := [], objects := [] } :=
  ⟨migrate_up_idempotent.2.1
      { appliedVersions := ["001"], objects := ["table:insumos"] } "001" (by decide),
   migrate_up_idempotent.1 { appliedVersions := [], objects := [] }⟩

/-- Claim C1: when the requested quantity exceeds the referenced
supply's current stock, `crear_entrega` aborts before any write with
`InsufficientStockException` carrying the item name, the current stock
and the requested quantity — the returned state is the unchanged input
state, so no `entregas` row is created and `cantidad_actual` is
untouched — and the BEFORE INSERT trigger `tr_entregas_validate_stock`
independently aborts a direct insert with its `RAISE(ABORT)` message as
a second guard. -/
theorem crear_entrega_insufficient_stock (db : DBState) (d : EntregaFormData)
    (codigo : String) (now : Nat) (emp : Empleado) (ins : Insumo)
    (h1 : 1 ≤ d.empleado_id) (h2 : 1 ≤ d.insumo_id) (h3 : 1 ≤ d.cantidad)
    (hemp : db.findEmpleado d.empleado_id = some emp)
    (hrecv : emp.can_receive_supplies = true)
    (hins : db.findInsumo d.insumo_id = some ins)
    (hq : ins.cantidad_actual < d.cantidad) :
    crear_entrega db d codigo now =
      (db, .error (.insufficientStock ins.nombre ins.cantidad_actual d.cantidad)) ∧
    insertEntregaStmt d.empleado_id d.insumo_id d.cantidad d.observaciones
        d.entregado_por codigo now db =
      (db, .error (.integrityError "Stock insuficiente para realizar la entrega")) := by
  have hval : validate_entrega_data d = .ok d := by
    unfold validate_entrega_data
    rw [if_neg (by omega), if_neg (by omega), if_neg (by omega)]
  have hv1 : validar_empleado_para_entrega db d.empleado_id = .ok true := by
    unfold validar_empleado_para_entrega
    simp only [hemp]
    rw [hrecv]
  have hsv : validar_stock_para_entrega db d.insumo_id d.cantidad =
      .ok { can_fulfill := decide (d.cantidad ≤ ins.cantidad_actual),
            insumo_nombre := ins.nombre, stock_actual := ins.cantidad_actual,
            cantidad_solicitada := d.cantidad,
            stock_restante := ins.cantidad_actual - d.cantidad } := by
    unfold validar_stock_para_entrega
    simp only [hins]
  have hfulfill : decide (d.cantidad ≤ ins.cantidad_actual) = false :=
    decide_eq_false (by omega)
  constructor
  · unfold crear_entrega
    simp only [hval, hv1, hsv, hfulfill, Bool.not_true, Bool.not_false,
      Bool.false_eq_true, if_false, if_true]
  · unfold insertEntregaStmt
    simp only [hins]
    rw [if_pos hq]

/-- Witness for C1: requesting 15 units of a supply holding 10. -/
theorem crear_entrega_insufficient_stock_witness :
    crear_entrega dbW
        { empleado_id := 1, insumo_id := 1, cantidad := 15,
          observaciones := "", entregado_por := "" } "ENT-0001" 500 =
      (dbW, .error (.insufficientStock "Papel A4" 10 15)) ∧
    insertEntregaStmt 1 1 15 "" "" "ENT-0001" 500 dbW =
      (dbW, .error (.integrityError "Stock insuficiente para realizar la entrega")) :=
  crear_entrega_insufficient_stock dbW
    { empleado_id := 1, insumo_id := 1, cantidad := 15,
      observaciones := "", entregado_por := "" }
    "ENT-0001" 500 empA insA (by decide) (by decide) (by decide)
    (by decide) (by decide) (by decide) (by decide)

/-- Claim C2: a successful delivery insert of quantity `q` against
supply `S` is one atomic transition (the AFTER INSERT trigger runs in
the same transaction as the row insert, and the transactional cursor
commits them together): in the committed post-state the delivery row
exists, `S.cantidad_actual` has decreased by exactly `q`,
`S.fecha_actualizacion` is bumped to the statement's timestamp, and
the employees table is untouched. -/
theorem entrega_insert_atomic_stock_decrement (db db' : DBState)
    (empId insId q : Nat) (obs por cod : String) (now newId : Nat)
    (ins : Insumo)
    (hins : db.findInsumo insId = some ins)
    (hok : insertEntregaStmt empId insId q obs por cod now db = (db', .ok newId)) :
    entregaRepoCreate db empId insId q obs por cod now = (db', .ok newId) ∧
    db'.entregas = db.entregas ++
      [{ id := newId, empleado_id := empId, insumo_id := insId, cantidad := q,
         fecha_entrega := now, observaciones := obs, entregado_por := por,
         codigo := cod }] ∧
    db'.findInsumo insId = some { ins with
      cantidad_actual := ins.cantidad_actual - q,
      fecha_actualizacion := now } ∧
    q ≤ ins.cantidad_actual ∧
    (ins.cantidad_actual - q) + q = ins.cantidad_actual ∧
    db'.empleados = db.empleados := by
  have hrepo : entregaRepoCreate db empId insId q obs por cod now = (db', .ok newId) := by
    unfold entregaRepoCreate runTransaction
    rw [hok]
  have hok' := hok
  unfold insertEntregaStmt at hok'
  simp only [hins] at hok'
  by_cases hlt : ins.cantidad_actual < q
  · rw [if_pos hlt] at hok'
    exact absurd (congrArg Prod.snd hok') (by simp)
  · rw [if_neg hlt] at hok'
    by_cases hz : q == 0
    · rw [if_pos hz] at hok'
      exact absurd (congrArg Prod.snd hok') (by simp)
    · rw [if_neg hz] at hok'
      cases hemp : db.findEmpleado empId with
      | none =>
          rw [hemp] at hok'
          exact absurd (congrArg Prod.snd hok') (by simp)
      | some emp =>
          rw [hemp] at hok'
          have hdb' := congrArg Prod.fst hok'
          have hid := congrArg Prod.snd hok'
          simp only [Except.ok.injEq] at hid
          simp only at hdb'
          subst hid
          have hins' : db.insumos.find? (fun i => i.id == insId) = some ins := hins
          have hbeq : (ins.id == insId) = true := by
            simpa using List.find?_some hins'
          refine ⟨hrepo, ?_, ?_, by omega, by omega, ?_⟩
          · rw [← hdb']
          · rw [← hdb']
            show (db.insumos.map _).find? (fun i : Insumo => i.id == insId) = _
            rw [find?_map_pres _ _ _ (fun x => ?_), hins']
            · have hid : ins.id = insId := by simpa using hbeq
              simp [hid]
            · by_cases hx : x.id == insId <;> simp [hx]
          · rw [← hdb']

/-- Witness for C2: delivering 4 of the 10 units in `dbW` commits the
row and the decrement together. -/
theorem entrega_insert_atomic_stock_decrement_witness :
    entregaRepoCreate dbW 1 1 4 "" "" "ENT-0001" 500 = (dbWAfter, .ok 1) ∧
    dbWAfter.entregas = dbW.entregas ++
      [{ id := 1, empleado_id := 1, insumo_id := 1, cantidad := 4,
         fecha_entrega := 500, observaciones := "", entregado_por := "",
         codigo := "ENT-0001" }] ∧
    dbWAfter.findInsumo 1 = some { insA with
      cantidad_actual := insA.cantidad_actual - 4,
      fecha_actualizacion := 500 } ∧
    4 ≤ insA.cantidad_actual ∧
    (insA.cantidad_actual - 4) + 4 = insA.cantidad_actual ∧
    dbWAfter.empleados = dbW.empleados :=
  entrega_insert_atomic_stock_decrement dbW dbWAfter 1 1 4 "" "" "ENT-0001"
    500 1 insA rfl rfl

/-!
## Alert-engine lemmas (claim C3)
-/

/-- `dict[key] = value` never removes a key already present. -/
theorem dictContains_dictSet (m : AlertMap) (k k' : String) (a : Alert)
    (h : dictContains m k = true) :
    dictContains (dictSet m k' a) k = true := by
  unfold dictSet
  split
  · unfold dictContains at *
    rw [List.any_map]
    rw [List.any_eq_true] at h ⊢
    obtain ⟨kv, hkv, hk⟩ := h
    refine ⟨kv, hkv, ?_⟩
    show (if kv.1 == k' then ((k', a) : String × Alert) else kv).1 == k
    split
    · next hkk => rw [← eq_of_beq hkk]; exact hk
    · exact hk
  · unfold dictContains at *
    rw [List.any_append, h, Bool.true_or]

/-- After `dict[key] = value` the key is present. -/
theorem dictContains_dictSet_self (m : AlertMap) (k : String) (a : Alert) :
    dictContains (dictSet m k a) k = true := by
  unfold dictSet
  split
  · next hc =>
    unfold dictContains at *
    rw [List.any_map]
    rw [List.any_eq_true] at hc ⊢
    obtain ⟨kv, hkv, hk⟩ := hc
    refine ⟨kv, hkv, ?_⟩
    show (if kv.1 == k then ((k, a) : String × Alert) else kv).1 == k
    rw [if_pos hk]
    exact beq_self_eq_true k
  · unfold dictContains
    rw [List.any_append]
    simp [List.any_cons]

/-- The candidate-processing loop never drops a key that is already
active. -/
theorem processKeyedCandidates_contains_mono (cands : List (String × Alert))
    (st : AlertState) (new : List Alert) (k : String)
    (h : dictContains st.active_alerts k = true) :
    dictContains (processKeyedCandidates st new cands).1.active_alerts k = true := by
  induction cands generalizing st new with
  | nil => exact h
  | cons ka rest ih =>
    obtain ⟨k', a'⟩ := ka
    unfold processKeyedCandidates
    split
    · exact ih st new h
    · exact ih _ _ (by
        show dictContains (dictSet st.active_alerts k' a') k = true
        exact dictContains_dictSet st.active_alerts k k' a' h)

/-- After the candidate-processing loop every candidate key is active. -/
theorem processKeyedCandidates_adds_keys (cands : List (String × Alert))
    (st : AlertState) (new : List Alert) (k : String) (a : Alert)
    (hmem : (k, a) ∈ cands) :
    dictContains (processKeyedCandidates st new cands).1.active_alerts k = true := by
  induction cands generalizing st new with
  | nil => cases hmem
  | cons ka rest ih =>
    obtain ⟨k', a'⟩ := ka
    unfold processKeyedCandidates
    rcases List.mem_cons.mp hmem with heq | hmem'
    · obtain ⟨rfl, rfl⟩ := Prod.mk.injEq k a k' a' ▸ heq
      split
      · next hc => exact processKeyedCandidates_contains_mono rest st new k hc
      · exact processKeyedCandidates_contains_mono rest _ _ k (by
          show dictContains (dictSet st.active_alerts k a) k = true
          exact dictContains_dictSet_self st.active_alerts k a)
    · split
      · exact ih _ _ hmem'
      · exact ih _ _ hmem'

/-- If every candidate key is already active, the loop adds nothing and
touches no alert (the existing entries keep their creation
timestamps). -/
theorem processKeyedCandidates_skip (cands : List (String × Alert))
    (st : AlertState) (new : List Alert)
    (h : ∀ ka ∈ cands, dictContains st.active_alerts ka.1 = true) :
    processKeyedCandidates st new cands = (st, new) := by
  induction cands generalizing new with
  | nil => rfl
  | cons ka rest ih =>
    obtain ⟨k', a'⟩ := ka
    unfold processKeyedCandidates
    rw [if_pos (h (k', a') (List.mem_cons_self _ _))]
    exact ih _ (fun x hx => h x (List.mem_cons_of_mem _ hx))

/-- The system pass (`_verificar_alertas_sistema`) only adds or replaces
entries, so an active key stays active. -/
theorem verificar_alertas_sistema_contains_mono (db : DBState) (now : Nat)
    (st : AlertState) (k : String)
    (h : dictContains st.active_alerts k = true) :
    dictContains (verificar_alertas_sistema db now st).1.active_alerts k = true := by
  unfold verificar_alertas_sistema
  generalize verificar_consistencia_datos db = incons
  suffices hgen : ∀ (l : List Inconsistencia) (acc : AlertState × List Alert),
      dictContains acc.1.active_alerts k = true →
      dictContains (l.foldl (fun acc inc =>
          let alert := dataInconsistencyAlert now inc
          (add_alert acc.1 none alert, acc.2 ++ [alert])) acc).1.active_alerts k = true by
    exact hgen incons (st, []) h
  intro l
  induction l with
  | nil => exact fun acc hacc => hacc
  | cons inc rest ih =>
    intro acc hacc
    simp only [List.foldl_cons]
    exact ih _ (by
      show dictContains (dictSet acc.1.active_alerts _ _) k = true
      exact dictContains_dictSet _ k _ _ hacc)

/-- When the consistency scan finds nothing, the system pass is a
no-op. -/
theorem verificar_alertas_sistema_empty (db : DBState) (now : Nat)
    (st : AlertState) (h : verificar_consistencia_datos db = []) :
    verificar_alertas_sistema db now st = (st, []) := by
  unfold verificar_alertas_sistema
  rw [h]
  rfl

/-- Stock-alert candidate keys do not depend on the pass timestamp. -/
theorem stockCandidates_key_stable (db : DBState) (n n' : Nat) (k : String)
    (a : Alert) (h : (k, a) ∈ stockCandidates db n) :
    ∃ a', (k, a') ∈ stockCandidates db n' := by
  unfold stockCandidates at h ⊢
  rcases List.mem_append.mp h with h | h
  · rcases List.mem_map.mp h with ⟨r, hr, heq⟩
    obtain rfl : make_alert_key "STOCK_CRITICO" (some r.id) "" = k :=
      congrArg Prod.fst heq
    exact ⟨stockCriticoAlert n' r,
      List.mem_append.mpr (Or.inl (List.mem_map.mpr ⟨r, hr, rfl⟩))⟩
  · rcases List.mem_map.mp h with ⟨r, hr, heq⟩
    obtain rfl : make_alert_key "STOCK_BAJO" (some r.id) "" = k :=
      congrArg Prod.fst heq
    exact ⟨stockBajoAlert n' r,
      List.mem_append.mpr (Or.inr (List.mem_map.mpr ⟨r, hr, rfl⟩))⟩

/-- Delivery-frequency candidate keys do not depend on the pass
timestamp. -/
theorem entregasFrecuentesCandidates_key_stable (db : DBState)
    (today n n' umbral : Nat) (k : String) (a : Alert)
    (h : (k, a) ∈ entregasFrecuentesCandidates db today n umbral) :
    ∃ a', (k, a') ∈ entregasFrecuentesCandidates db today n' umbral := by
  unfold entregasFrecuentesCandidates at h ⊢
  rcases List.mem_filterMap.mp h with ⟨iid, hmem, hf⟩
  dsimp only at hf
  split at hf
  · next hcond =>
    obtain rfl : make_alert_key "ENTREGAS_FRECUENTES" (some iid) (toString today) = k :=
      congrArg Prod.fst (Option.some.inj hf)
    exact ⟨entregasFrecuentesAlert n' iid
        (((db.findInsumo iid).map (fun i => i.nombre)).getD "")
        ((List.filter (fun e => e.insumo_id == iid) (entregasHoyRows db today)).length),
      List.mem_filterMap.mpr ⟨iid, hmem, by dsimp only; rw [if_pos hcond]⟩⟩
  · exact absurd hf (by simp)

/-- Claim C3 (amended): with no data inconsistencies in the repository
state, a second verification pass over an unchanged state creates zero
new alerts and leaves the engine state identical — every stock and
delivery candidate key is already active, and those passes check the
key before creating, so the existing alerts are not replaced and their
creation timestamps are not refreshed. -/
theorem verificar_alertas_second_pass_empty (db : DBState)
    (today now1 now2 umbral : Nat) (st : AlertState)
    (hconsist : verificar_consistencia_datos db = []) :
    verificar_todas_las_alertas db today now2 umbral
        (verificar_todas_las_alertas db today now1 umbral st).1 =
      ((verificar_todas_las_alertas db today now1 umbral st).1, 0) := by
  set A1 := (verificar_alertas_stock db now1 st).1 with hA1def
  set A2 := (verificar_alertas_entregas db today now1 umbral A1).1 with hA2def
  have hst1 : (verificar_todas_las_alertas db today now1 umbral st).1 = A2 := by
    show (verificar_alertas_sistema db now1 A2).1 = A2
    rw [verificar_alertas_sistema_empty db now1 A2 hconsist]
  -- Every stock-candidate key is active in A2.
  have hstockKeys : ∀ ka ∈ stockCandidates db now2,
      dictContains A2.active_alerts ka.1 = true := by
    rintro ⟨k, a⟩ hka
    obtain ⟨a1, ha1⟩ := stockCandidates_key_stable db now2 now1 k a hka
    have hInA1 : dictContains A1.active_alerts k = true :=
      processKeyedCandidates_adds_keys _ st [] k a1 ha1
    exact processKeyedCandidates_contains_mono _ A1 [] k hInA1
  -- Every delivery-candidate key is active in A2.
  have hentrKeys : ∀ ka ∈ entregasFrecuentesCandidates db today now2 umbral,
      dictContains A2.active_alerts ka.1 = true := by
    rintro ⟨k, a⟩ hka
    obtain ⟨a1, ha1⟩ :=
      entregasFrecuentesCandidates_key_stable db today now2 now1 umbral k a hka
    exact processKeyedCandidates_adds_keys _ A1 [] k a1 ha1
  have hstock2 : verificar_alertas_stock db now2 A2 = (A2, []) :=
    processKeyedCandidates_skip _ A2 [] hstockKeys
  have hentr2 : verificar_alertas_entregas db today now2 umbral A2 = (A2, []) :=
    processKeyedCandidates_skip _ A2 [] hentrKeys
  have hsys2 : verificar_alertas_sistema db now2 A2 = (A2, []) :=
    verificar_alertas_sistema_empty db now2 A2 hconsist
  rw [hst1]
  show ((verificar_alertas_sistema db now2
      (verificar_alertas_entregas db today now2 umbral
        (verificar_alertas_stock db now2 A2).1).1).1, _) = (A2, 0)
  rw [hstock2]
  show ((verificar_alertas_sistema db now2
      (verificar_alertas_entregas db today now2 umbral A2).1).1, _) = (A2, 0)
  rw [hentr2]
  show ((verificar_alertas_sistema db now2 A2).1, _) = (A2, 0)
  rw [hsys2]
  rfl

/-- Witness for C3: on `dbBaja` (one low-stock supply) the first pass
creates the `STOCK_BAJO` alert and the second pass creates nothing. -/
theorem verificar_alertas_second_pass_empty_witness :
    verificar_todas_las_alertas dbBaja 0 200 5
        (verificar_todas_las_alertas dbBaja 0 100 5 st0).1 =
      ((verificar_todas_las_alertas dbBaja 0 100 5 st0).1, 0) :=
  verificar_alertas_second_pass_empty dbBaja 0 100 200 5 st0 rfl

/-- Counterexample to C3 as stated: `dbCedulaVacia` (an active employee
with a blank cedula — a schema-reachable state) makes
`_verificar_alertas_sistema` report a data inconsistency; that path
calls `_add_alert` with no presence check, so the second pass with an
unchanged state still reports one new alert and replaces the active
`DATA_INCONSISTENCY:SYS:` entry, refreshing its creation timestamp from
100 to 200. -/
theorem verificar_alertas_dedup_counterexample :
    (verificar_todas_las_alertas dbCedulaVacia 0 100 5 st0).2 = 1 ∧
    (verificar_todas_las_alertas dbCedulaVacia 0 200 5
        (verificar_todas_las_alertas dbCedulaVacia 0 100 5 st0).1).2 = 1 ∧
    ((verificar_todas_las_alertas dbCedulaVacia 0 100 5 st0).1.active_alerts.map
        (fun kv => (kv.1, kv.2.created_at))) =
      [("DATA_INCONSISTENCY:SYS:", 100)] ∧
    ((verificar_todas_las_alertas dbCedulaVacia 0 200 5
        (verificar_todas_las_alertas dbCedulaVacia 0 100 5 st0).1).1.active_alerts.map
        (fun kv => (kv.1, kv.2.created_at))) =
      [("DATA_INCONSISTENCY:SYS:", 200)] :=
  ⟨rfl, rfl, by decide, by decide⟩
